import Mathlib

/-!
Verification development for the LivenessDemo repository.

The repository contains two near-identical implementations of a browser
liveness check (src/main.js and a second unnamed source file).  The second
file is a superset of the first: it adds the best-face capture tracker
(bestFace, captureBestFace) to the same liveness state machine.  The
definitions below are a shallow embedding of that fuller implementation;
where the two files overlap (processLiveness, getEAR, getMAR, dist,
startLivenessTest, resetMetrics, the restart handler) their code is
line-for-line the same logic, so one embedding covers both.

Number model: JavaScript numbers are IEEE-754 doubles.  Finite arithmetic
is modeled exactly over the rationals; the special values Infinity,
-Infinity and NaN, which matter here because the ratio computations can
divide by zero, are modeled explicitly by the JSNum type with the
JavaScript semantics of division, addition and comparison on those values.
Math.sqrt is modeled by Rat.sqrt; every property proved below depends only
on the facts that the square root of zero is zero, square roots are
nonnegative, and exact values on perfect squares, all of which hold for
both functions.  Wall-clock time (Date.now) is a natural-number millisecond
count supplied to each frame.  DOM and drawing calls (statusEl, updateUI,
console.log, canvas operations) have no effect on the liveness state and
are not modeled; the asynchronous toBlob callback that stores the captured
frame is modeled as completing synchronously.
-/

namespace LivenessDemo

/-- A JavaScript number: an exact finite rational, positive or negative
infinity, or NaN. -/
inductive JSNum where
  | fin (q : ℚ)
  | inf
  | ninf
  | nan
deriving DecidableEq, Repr

/-- JavaScript addition on numbers, restricted to the cases that arise:
NaN propagates, opposite infinities give NaN, an infinity absorbs any
finite value, and finite values add exactly. -/
def jsAdd : JSNum → JSNum → JSNum
  | .nan, _ => .nan
  | _, .nan => .nan
  | .inf, .ninf => .nan
  | .ninf, .inf => .nan
  | .inf, _ => .inf
  | _, .inf => .inf
  | .ninf, _ => .ninf
  | _, .ninf => .ninf
  | .fin a, .fin b => .fin (a + b)

/-- JavaScript division.  Division of a nonzero finite value by zero gives
a signed infinity, zero by zero gives NaN, NaN propagates, an infinity
divided by a finite value keeps its (possibly flipped) sign, and a finite
value divided by an infinity is zero.  Negative zero is identified with
zero. -/
def jsDiv : JSNum → JSNum → JSNum
  | .nan, _ => .nan
  | _, .nan => .nan
  | .inf, .inf => .nan
  | .inf, .ninf => .nan
  | .ninf, .inf => .nan
  | .ninf, .ninf => .nan
  | .inf, .fin b => if b < 0 then .ninf else .inf
  | .ninf, .fin b => if b < 0 then .inf else .ninf
  | .fin _, .inf => .fin 0
  | .fin _, .ninf => .fin 0
  | .fin a, .fin b =>
      if b = 0 then (if a = 0 then .nan else if a < 0 then .ninf else .inf)
      else .fin (a / b)

/-- The JavaScript strict less-than comparison: any comparison involving
NaN is false, -Infinity is below and Infinity above every finite value. -/
def jsLt : JSNum → JSNum → Bool
  | .nan, _ => false
  | _, .nan => false
  | .fin a, .fin b => a < b
  | .fin _, .inf => true
  | .fin _, .ninf => false
  | .inf, _ => false
  | .ninf, .ninf => false
  | .ninf, _ => true

/-- The JavaScript greater-than comparison, expressed through jsLt exactly
as the abstract relational comparison does (NaN compares false either
way). -/
def jsGt (a b : JSNum) : Bool := jsLt b a

/-- A 2-D landmark point with coordinates in the video frame. -/
structure Point where
  x : ℚ
  y : ℚ
deriving DecidableEq, Repr

/-- The named landmark groups the code reads, mirroring the face-api
accessors getLeftEye, getRightEye, getMouth, getNose and getJawOutline.
JavaScript arrays are indexed by number; each group is modeled as a total
function from indices to points (the code only reads the in-range indices
0..5, 0/3/6/9, 3, 0/16 respectively). -/
structure Landmarks where
  leftEye : ℕ → Point
  rightEye : ℕ → Point
  mouth : ℕ → Point
  nose : ℕ → Point
  jaw : ℕ → Point

/-- Translation of dist (src/main.js lines 289-291 and the unnamed file
lines 494-497): the Euclidean distance between two points. -/
def dist (p1 p2 : Point) : ℚ :=
  Rat.sqrt ((p1.x - p2.x) ^ 2 + (p1.y - p2.y) ^ 2)

/-- Translation of getEAR (src/main.js lines 251-263 and the unnamed file
lines 448-464): the eye aspect ratio (A + B) / (2 * C) computed from the
6-point eye contour.  The division is JavaScript division, so a zero
horizontal corner distance C produces Infinity or NaN, not an error. -/
def getEAR (eye : ℕ → Point) : JSNum :=
  let A := dist (eye 1) (eye 5)
  let B := dist (eye 2) (eye 4)
  let C := dist (eye 0) (eye 3)
  jsDiv (.fin (A + B)) (.fin (2 * C))

/-- Translation of getMAR (src/main.js lines 265-287 and the unnamed file
lines 467-491): mouth height over mouth width on the outer-lip contour. -/
def getMAR (mouth : ℕ → Point) : JSNum :=
  let height := dist (mouth 3) (mouth 9)
  let width := dist (mouth 0) (mouth 6)
  jsDiv (.fin height) (.fin width)

/-- The average eye aspect ratio computed in the BLINK branch of
processLiveness: (getEAR(leftEye) + getEAR(rightEye)) / 2. -/
def avgEAR (landmarks : Landmarks) : JSNum :=
  jsDiv (jsAdd (getEAR landmarks.leftEye) (getEAR landmarks.rightEye)) (.fin 2)

/-- The head-yaw proxy computed identically in the SHAKE branch of
processLiveness and in captureBestFace:
(noseTip.x - jawLeft.x) / (jawRight.x - jawLeft.x) with the nose tip at
nose index 3 and the jaw extremes at indices 0 and 16. -/
def noseRelX (landmarks : Landmarks) : JSNum :=
  let noseTip := landmarks.nose 3
  let faceLeft := (landmarks.jaw 0).x
  let faceRight := (landmarks.jaw 16).x
  let faceWidth := faceRight - faceLeft
  jsDiv (.fin (noseTip.x - faceLeft)) (.fin faceWidth)

/-- Translation of the BLINK_THRESHOLD constant (0.3). -/
def BLINK_THRESHOLD : JSNum := .fin (3 / 10)

/-- Translation of the MOUTH_OPEN_THRESHOLD constant (0.3). -/
def MOUTH_OPEN_THRESHOLD : JSNum := .fin (3 / 10)

/-- Translation of the HEAD_SHAKE_THRESHOLD constant (15); declared in
both source files but never read by the logic. -/
def HEAD_SHAKE_THRESHOLD : ℚ := 15

/-- The session states of the state string variable: LOADING, READY,
BLINK, MOUTH, SHAKE, COMPLETED. -/
inductive SessionState where
  | LOADING
  | READY
  | BLINK
  | MOUTH
  | SHAKE
  | COMPLETED
deriving DecidableEq, Repr

/-- The mutable module-level state of the implementation: the session
state string, the two challenge counters, the headShakeData record
(left and right timestamps in milliseconds with 0 meaning unseen, plus
the unused lastX field), and the bestFace record (captured frame and its
detection score).  The captured still image is represented by an opaque
natural-number frame identifier. -/
structure LivenessState where
  state : SessionState
  blinkCounter : ℕ
  mouthOpenCounter : ℕ
  headShakeLeft : ℕ
  headShakeRight : ℕ
  headShakeLastX : ℚ
  bestFaceBlob : Option ℕ
  bestFaceScore : ℚ
deriving DecidableEq, Repr

/-- The state of the module variables at script load. -/
def initialState : LivenessState :=
  { state := .LOADING
    blinkCounter := 0
    mouthOpenCounter := 0
    headShakeLeft := 0
    headShakeRight := 0
    headShakeLastX := 0
    bestFaceBlob := none
    bestFaceScore := 0 }

/-- Translation of resetMetrics (unnamed file lines 183-193; src/main.js
lines 117-121 is the same minus the bestFace reset): zero both challenge
counters, clear the headShakeData record, and clear the bestFace record. -/
def resetMetrics (s : LivenessState) : LivenessState :=
  { s with
    blinkCounter := 0
    mouthOpenCounter := 0
    headShakeLeft := 0
    headShakeRight := 0
    headShakeLastX := 0
    bestFaceBlob := none
    bestFaceScore := 0 }

/-- Translation of startLivenessTest (both files): enter BLINK and reset
all metrics.  The updateUI call only touches the DOM. -/
def startLivenessTest (s : LivenessState) : LivenessState :=
  resetMetrics { s with state := .BLINK }

/-- Translation of the restart button click handler (both files): it
calls startLivenessTest and hides the button. -/
def restart (s : LivenessState) : LivenessState :=
  startLivenessTest s

/-- Translation of processLiveness (src/main.js lines 159-247 and the
unnamed file lines 324-443): the per-frame challenge logic, a direct
transcription of the if/else-if chain on the session state.  The now
argument is the Date.now() millisecond clock read in the SHAKE branch.
All statusEl, console and updateUI calls are DOM-only and dropped. -/
def processLiveness (s : LivenessState) (landmarks : Landmarks) (now : ℕ) : LivenessState :=
  if s.state = .COMPLETED then s
  else if s.state = .BLINK then
    if jsLt (avgEAR landmarks) BLINK_THRESHOLD then
      { s with blinkCounter := s.blinkCounter + 1 }
    else if 1 ≤ s.blinkCounter then
      { s with state := .MOUTH, blinkCounter := 0 }
    else
      { s with blinkCounter := 0 }
  else if s.state = .MOUTH then
    if jsGt (getMAR landmarks.mouth) MOUTH_OPEN_THRESHOLD then
      { s with mouthOpenCounter := s.mouthOpenCounter + 1 }
    else if 2 < s.mouthOpenCounter then
      { s with state := .SHAKE, mouthOpenCounter := 0 }
    else
      { s with mouthOpenCounter := 0 }
  else if s.state = .SHAKE then
    let nrx := noseRelX landmarks
    let s1 := if jsLt nrx (.fin (2 / 5)) then { s with headShakeLeft := now } else s
    let s2 := if jsGt nrx (.fin (3 / 5)) then { s1 with headShakeRight := now } else s1
    if s2.headShakeLeft ≠ 0 ∧ s2.headShakeRight ≠ 0 ∧
        ((s2.headShakeLeft : ℤ) - (s2.headShakeRight : ℤ)).natAbs < 2000 then
      { s2 with state := .COMPLETED }
    else s2
  else s

/-- Translation of captureBestFace (unnamed file lines 283-321): compute
the head-yaw proxy, classify the pose as frontal when it lies strictly
between 0.45 and 0.55, and when the pose is frontal and the detection
score strictly beats the held best score, store the current video frame
and the new score together.  The frame argument stands for the still
image drawn from the video element. -/
def captureBestFace (s : LivenessState) (score : ℚ) (landmarks : Landmarks)
    (frame : ℕ) : LivenessState :=
  let nrx := noseRelX landmarks
  let isFrontal := jsGt nrx (.fin (9 / 20)) && jsLt nrx (.fin (11 / 20))
  if isFrontal ∧ s.bestFaceScore < score then
    { s with bestFaceBlob := some frame, bestFaceScore := score }
  else s

/-- One tick of the detection loop: either no face was detected, or one
face with its detection score, landmark set, and current video frame. -/
inductive FrameInput where
  | noFace
  | face (score : ℚ) (landmarks : Landmarks) (frame : ℕ)

/-- Translation of the per-tick callback body inside onVideoPlay (unnamed
file lines 129-168): when a face is detected, first call captureBestFace
unless the session state is SHAKE, COMPLETED or LOADING, then call
processLiveness; when no face is detected only the status text changes,
so the liveness state is untouched. -/
def detectionTick (s : LivenessState) (input : FrameInput) (now : ℕ) : LivenessState :=
  match input with
  | .noFace => s
  | .face score landmarks frame =>
      let s1 :=
        if s.state ≠ .SHAKE ∧ s.state ≠ .COMPLETED ∧ s.state ≠ .LOADING then
          captureBestFace s score landmarks frame
        else s
      processLiveness s1 landmarks now

/-- Run processLiveness over a list of frames, each frame carrying its
landmark set and its Date.now() reading. -/
def runFrames (s : LivenessState) (frames : List (Landmarks × ℕ)) : LivenessState :=
  frames.foldl (fun acc f => processLiveness acc f.1 f.2) s

/-- Position of a session state along the forward chain
LOADING, READY, BLINK, MOUTH, SHAKE, COMPLETED. -/
def stateIdx : SessionState → ℕ
  | .LOADING => 0
  | .READY => 1
  | .BLINK => 2
  | .MOUTH => 3
  | .SHAKE => 4
  | .COMPLETED => 5

/-- A liveness state in the given session state with clean counters,
timestamps and best-face record; used for concrete test inputs. -/
def baseState (st : SessionState) : LivenessState :=
  { state := st
    blinkCounter := 0
    mouthOpenCounter := 0
    headShakeLeft := 0
    headShakeRight := 0
    headShakeLastX := 0
    bestFaceBlob := none
    bestFaceScore := 0 }

/-- A concrete 6-point eye contour: corners at x = 0 and x = 1 on the
axis, both top-lid points raised by the gap g, bottom-lid points at the
origin.  Its EAR evaluates to the absolute value of g. -/
def mkEye (g : ℚ) : ℕ → Point := fun i =>
  if i = 1 ∨ i = 2 then ⟨0, g⟩ else if i = 3 then ⟨1, 0⟩ else ⟨0, 0⟩

/-- A concrete outer-lip contour: corners at x = 0 and x = 1, upper-lip
center raised by the gap m.  Its MAR evaluates to the absolute value
of m. -/
def mkMouth (m : ℚ) : ℕ → Point := fun i =>
  if i = 3 then ⟨0, m⟩ else if i = 6 then ⟨1, 0⟩ else ⟨0, 0⟩

/-- A concrete nose ridge whose tip (index 3) sits at horizontal
position x. -/
def mkNose (x : ℚ) : ℕ → Point := fun i =>
  if i = 3 then ⟨x, 0⟩ else ⟨0, 0⟩

/-- A concrete jaw outline with left extreme at x = 0 and right extreme
at x = 1, so the head-yaw proxy equals the nose-tip x coordinate. -/
def mkJaw : ℕ → Point := fun i =>
  if i = 16 then ⟨1, 0⟩ else ⟨0, 0⟩

/-- A concrete full landmark set assembled from the pieces above: eye gap,
mouth gap, and nose-tip horizontal position. -/
def mkFrame (eyeGap mouthGap noseX : ℚ) : Landmarks :=
  { leftEye := mkEye eyeGap
    rightEye := mkEye eyeGap
    mouth := mkMouth mouthGap
    nose := mkNose noseX
    jaw := mkJaw }

/-- A degenerate 6-point eye contour whose corner points sit only one
millionth of a unit apart and whose lid points all coincide with the left
corner. -/
def degEyeTiny : ℕ → Point := fun i =>
  if i = 3 then ⟨1 / 1000000, 0⟩ else ⟨0, 0⟩

/-- A fully collapsed eye contour: every point at the origin, so the
corner points coincide exactly. -/
def degEyeZero : ℕ → Point := fun _ => ⟨0, 0⟩

/-- A landmark set whose two eyes are the tiny degenerate contour. -/
def degFrameTiny : Landmarks :=
  { leftEye := degEyeTiny
    rightEye := degEyeTiny
    mouth := mkMouth 0
    nose := mkNose (1 / 2)
    jaw := mkJaw }

/-- A landmark set whose left eye is fully collapsed while the right eye
is a normal open eye. -/
def degFrameZero : Landmarks :=
  { leftEye := degEyeZero
    rightEye := mkEye 1
    mouth := mkMouth 0
    nose := mkNose (1 / 2)
    jaw := mkJaw }

/-- A neutral frame: eyes open (EAR 1), mouth closed (MAR 0), nose
centered (proxy 0.5). -/
def frameNeutral : Landmarks := mkFrame 1 0 (1 / 2)

/-- A frame with both eyes closed (EAR 0). -/
def frameEyesClosed : Landmarks := mkFrame 0 0 (1 / 2)

/-- A frame with the mouth open (MAR 1). -/
def frameMouthOpen : Landmarks := mkFrame 1 1 (1 / 2)

/-- A frame with the head turned right (proxy 0.7). -/
def frameNoseRight : Landmarks := mkFrame 1 0 (7 / 10)

/-- The rational square root is exact on squares of nonnegative
rationals. -/
theorem rat_sqrt_sq (q : ℚ) (h : 0 ≤ q) : Rat.sqrt (q ^ 2) = q := by
  rw [sq, Rat.sqrt_eq, abs_of_nonneg h]

/-- Distance between two points on a common vertical line. -/
theorem dist_vert (x y1 y2 : ℚ) : dist ⟨x, y1⟩ ⟨x, y2⟩ = |y1 - y2| := by
  rw [dist]
  dsimp only
  rw [show (x - x) ^ 2 + (y1 - y2) ^ 2 = (y1 - y2) * (y1 - y2) by ring, Rat.sqrt_eq]

/-- Distance between two points on a common horizontal line. -/
theorem dist_horiz (x1 x2 y : ℚ) : dist ⟨x1, y⟩ ⟨x2, y⟩ = |x1 - x2| := by
  rw [dist]
  dsimp only
  rw [show (x1 - x2) ^ 2 + (y - y) ^ 2 = (x1 - x2) * (x1 - x2) by ring, Rat.sqrt_eq]

/-- The distance from a point to itself is zero. -/
theorem dist_self (p : Point) : dist p p = 0 := by
  rw [dist]
  rw [show (p.x - p.x) ^ 2 + (p.y - p.y) ^ 2 = (0 : ℚ) * 0 by ring, Rat.sqrt_eq]
  norm_num

/-- Distances are nonnegative. -/
theorem dist_nonneg (p1 p2 : Point) : 0 ≤ dist p1 p2 :=
  Rat.sqrt_nonneg _

/-- The EAR of the concrete eye contour with lid gap g is the absolute
value of g. -/
theorem getEAR_mkEye (g : ℚ) : getEAR (mkEye g) = .fin |g| := by
  rw [getEAR]
  simp only [mkEye]
  norm_num
  rw [dist_vert, dist_horiz]
  simp only [jsDiv]
  norm_num

/-- The average EAR of the concrete frame equals the EAR of its two
identical eyes. -/
theorem avgEAR_mkFrame (g m x : ℚ) : avgEAR (mkFrame g m x) = .fin |g| := by
  rw [avgEAR]
  simp only [mkFrame]
  rw [getEAR_mkEye, jsAdd, jsDiv]
  norm_num

/-- The MAR of the concrete frame with mouth gap m is the absolute value
of m. -/
theorem getMAR_mkFrame (g m x : ℚ) : getMAR (mkFrame g m x).mouth = .fin |m| := by
  rw [getMAR]
  simp only [mkFrame, mkMouth]
  norm_num
  rw [dist_vert, dist_horiz, jsDiv]
  rw [abs_of_nonpos (by norm_num : (0 : ℚ) - 1 ≤ 0)]
  norm_num

/-- The head-yaw proxy of the concrete frame is exactly the chosen
nose-tip position. -/
theorem noseRelX_mkFrame (g m x : ℚ) : noseRelX (mkFrame g m x) = .fin x := by
  rw [noseRelX]
  simp only [mkFrame, mkNose, mkJaw]
  norm_num
  rw [jsDiv]
  norm_num

/-- The EAR of the tiny degenerate contour is exactly zero: the lid
distances vanish while the corner distance is only one millionth. -/
theorem getEAR_degEyeTiny : getEAR degEyeTiny = .fin 0 := by
  simp only [getEAR, degEyeTiny]
  norm_num
  rw [dist_self, dist_horiz]
  simp only [jsDiv]
  norm_num

/-- The corner distance of the tiny degenerate contour is one
millionth. -/
theorem dist_degEyeTiny_corners : dist (degEyeTiny 0) (degEyeTiny 3) = 1 / 1000000 := by
  simp only [degEyeTiny]
  norm_num
  rw [dist_horiz]
  norm_num

/-- The EAR of the fully collapsed contour is NaN: zero divided by
zero. -/
theorem getEAR_degEyeZero : getEAR degEyeZero = .nan := by
  simp only [getEAR, degEyeZero]
  rw [dist_self]
  norm_num [jsDiv]

/-- The average EAR over two tiny degenerate eyes is zero. -/
theorem avgEAR_degFrameTiny : avgEAR degFrameTiny = .fin 0 := by
  rw [avgEAR]
  simp only [degFrameTiny]
  rw [getEAR_degEyeTiny, jsAdd, jsDiv]
  norm_num

/-- An eye aspect ratio is never negative infinity, because the lid
distances in its numerator are nonnegative. -/
theorem getEAR_ne_ninf (eye : ℕ → Point) : getEAR eye ≠ .ninf := by
  have hAB : 0 ≤ dist (eye 1) (eye 5) + dist (eye 2) (eye 4) :=
    add_nonneg (dist_nonneg _ _) (dist_nonneg _ _)
  simp only [getEAR, jsDiv]
  split_ifs with h1 h2 h3
  · simp
  · exact absurd h3 (not_lt.mpr hAB)
  · simp
  · simp

/-- Dividing a nonnegative finite value by finite zero in JavaScript
yields NaN for a zero numerator and Infinity otherwise. -/
theorem jsDiv_fin_zero (a : ℚ) (h : 0 ≤ a) :
    jsDiv (.fin a) (.fin 0) = if a = 0 then .nan else .inf := by
  simp only [jsDiv, if_true]
  rcases eq_or_lt_of_le h with h0 | hpos
  · rw [if_pos h0.symm, if_pos h0.symm]
  · rw [if_neg (ne_of_gt hpos), if_neg (ne_of_gt hpos), if_neg (not_lt.mpr h)]

/-- Infinity divided by two is Infinity. -/
theorem jsDiv_inf_fin_two : jsDiv .inf (.fin 2) = .inf := by
  simp only [jsDiv]
  norm_num

/-- NaN propagates through division. -/
theorem jsDiv_nan (b : JSNum) : jsDiv .nan b = .nan := by
  cases b <;> rfl

/-- NaN propagates through addition. -/
theorem jsAdd_nan (b : JSNum) : jsAdd .nan b = .nan := by
  cases b <;> rfl

/-- Infinity is not below anything. -/
theorem jsLt_inf_left (b : JSNum) : jsLt .inf b = false := by
  cases b <;> rfl

/-- NaN compares false. -/
theorem jsLt_nan_left (b : JSNum) : jsLt .nan b = false := by
  cases b <;> rfl

/-- When the corner points of an eye contour coincide, the JavaScript
division makes its EAR Infinity (positive lid distances) or NaN (all
distances zero); no exception is raised. -/
theorem getEAR_corners_coincident (eye : ℕ → Point) (h : eye 0 = eye 3) :
    getEAR eye = .inf ∨ getEAR eye = .nan := by
  have hAB : 0 ≤ dist (eye 1) (eye 5) + dist (eye 2) (eye 4) :=
    add_nonneg (dist_nonneg _ _) (dist_nonneg _ _)
  simp only [getEAR, h, dist_self, mul_zero]
  rw [jsDiv_fin_zero _ hAB]
  split_ifs
  · right; rfl
  · left; rfl

/-- When the left eye has coincident corners, the averaged EAR is
Infinity or NaN, and the JavaScript comparison with the blink threshold
is false either way: the frame classifies as eyes open. -/
theorem avgEAR_left_corners_coincident (lm : Landmarks) (h : lm.leftEye 0 = lm.leftEye 3) :
    jsLt (avgEAR lm) BLINK_THRESHOLD = false := by
  have hr := getEAR_ne_ninf lm.rightEye
  rcases getEAR_corners_coincident lm.leftEye h with hl | hl
  · rw [avgEAR, hl]
    rcases hre : getEAR lm.rightEye with q | _ | _ | _
    · rw [show jsAdd .inf (.fin q) = .inf from rfl, jsDiv_inf_fin_two, jsLt_inf_left]
    · rw [show jsAdd .inf .inf = .inf from rfl, jsDiv_inf_fin_two, jsLt_inf_left]
    · exact absurd hre hr
    · rw [show jsAdd .inf .nan = .nan from rfl, jsDiv_nan, jsLt_nan_left]
  · rw [avgEAR, hl, jsAdd_nan, jsDiv_nan, jsLt_nan_left]

/-- captureBestFace never changes the session state, the challenge
counters or the head-shake timestamps. -/
theorem captureBestFace_static (s : LivenessState) (score : ℚ) (lm : Landmarks) (fr : ℕ) :
    (captureBestFace s score lm fr).state = s.state ∧
    (captureBestFace s score lm fr).blinkCounter = s.blinkCounter ∧
    (captureBestFace s score lm fr).mouthOpenCounter = s.mouthOpenCounter ∧
    (captureBestFace s score lm fr).headShakeLeft = s.headShakeLeft ∧
    (captureBestFace s score lm fr).headShakeRight = s.headShakeRight := by
  simp only [captureBestFace]
  split_ifs <;> simp

/-- processLiveness never changes the best-face record. -/
theorem processLiveness_bestFace (s : LivenessState) (lm : Landmarks) (n : ℕ) :
    (processLiveness s lm n).bestFaceBlob = s.bestFaceBlob ∧
    (processLiveness s lm n).bestFaceScore = s.bestFaceScore := by
  simp only [processLiveness]
  split_ifs <;> simp

/-- Characterization of processLiveness on a BLINK frame. -/
theorem processLiveness_blink (s : LivenessState) (lm : Landmarks) (n : ℕ)
    (hs : s.state = .BLINK) :
    processLiveness s lm n =
      if jsLt (avgEAR lm) BLINK_THRESHOLD then
        { s with blinkCounter := s.blinkCounter + 1 }
      else if 1 ≤ s.blinkCounter then
        { s with state := .MOUTH, blinkCounter := 0 }
      else
        { s with blinkCounter := 0 } := by
  simp [processLiveness, hs]

/-- Characterization of processLiveness on a MOUTH frame. -/
theorem processLiveness_mouth (s : LivenessState) (lm : Landmarks) (n : ℕ)
    (hs : s.state = .MOUTH) :
    processLiveness s lm n =
      if jsGt (getMAR lm.mouth) MOUTH_OPEN_THRESHOLD then
        { s with mouthOpenCounter := s.mouthOpenCounter + 1 }
      else if 2 < s.mouthOpenCounter then
        { s with state := .SHAKE, mouthOpenCounter := 0 }
      else
        { s with mouthOpenCounter := 0 } := by
  simp [processLiveness, hs]

/-- Characterization of processLiveness on a SHAKE frame. -/
theorem processLiveness_shake (s : LivenessState) (lm : Landmarks) (n : ℕ)
    (hs : s.state = .SHAKE) :
    processLiveness s lm n =
      (let s1 := if jsLt (noseRelX lm) (.fin (2 / 5)) then
          { s with headShakeLeft := n } else s
       let s2 := if jsGt (noseRelX lm) (.fin (3 / 5)) then
          { s1 with headShakeRight := n } else s1
       if s2.headShakeLeft ≠ 0 ∧ s2.headShakeRight ≠ 0 ∧
           ((s2.headShakeLeft : ℤ) - (s2.headShakeRight : ℤ)).natAbs < 2000 then
         { s2 with state := .COMPLETED }
       else s2) := by
  simp [processLiveness, hs]

/-- Characterization of processLiveness in the bootstrap and terminal
states: it changes nothing. -/
theorem processLiveness_other (s : LivenessState) (lm : Landmarks) (n : ℕ)
    (hs : s.state = .LOADING ∨ s.state = .READY ∨ s.state = .COMPLETED) :
    processLiveness s lm n = s := by
  rcases hs with h | h | h <;> simp [processLiveness, h]

/-- The open-mouth test is true on the concrete open-mouth frame. -/
theorem marOpen_frameMouthOpen :
    jsGt (getMAR frameMouthOpen.mouth) MOUTH_OPEN_THRESHOLD = true := by
  rw [frameMouthOpen, getMAR_mkFrame]
  norm_num [jsGt, jsLt, MOUTH_OPEN_THRESHOLD]

/-- The open-mouth test is false on the neutral frame. -/
theorem marClosed_frameNeutral :
    jsGt (getMAR frameNeutral.mouth) MOUTH_OPEN_THRESHOLD = false := by
  rw [frameNeutral, getMAR_mkFrame]
  norm_num [jsGt, jsLt, MOUTH_OPEN_THRESHOLD]

/-- While the session is in MOUTH, a run of frames that all test open
only advances the mouth counter. -/
theorem runFrames_mouth_open (frames : List (Landmarks × ℕ)) (s : LivenessState)
    (hs : s.state = .MOUTH)
    (h : ∀ f ∈ frames, jsGt (getMAR f.1.mouth) MOUTH_OPEN_THRESHOLD = true) :
    runFrames s frames =
      { s with mouthOpenCounter := s.mouthOpenCounter + frames.length } := by
  induction frames generalizing s with
  | nil => simp [runFrames]
  | cons f fs ih =>
      have hf := h f (List.mem_cons_self f fs)
      have hrest : ∀ g ∈ fs, jsGt (getMAR g.1.mouth) MOUTH_OPEN_THRESHOLD = true :=
        fun g hg => h g (List.mem_cons_of_mem f hg)
      have hstep : processLiveness s f.1 f.2 =
          { s with mouthOpenCounter := s.mouthOpenCounter + 1 } := by
        rw [processLiveness_mouth s f.1 f.2 hs, if_pos hf]
      show runFrames (processLiveness s f.1 f.2) fs = _
      rw [hstep, ih _ (by simp [hs]) hrest]
      simp only [List.length_cons]
      congr 1
      omega

/-- processLiveness never moves the session state backwards along the
chain. -/
theorem processLiveness_stateIdx (s : LivenessState) (lm : Landmarks) (n : ℕ) :
    stateIdx s.state ≤ stateIdx (processLiveness s lm n).state := by
  rcases hst : s.state with _ | _ | _ | _ | _ | _
  · rw [processLiveness_other s lm n (Or.inl hst), hst]
  · rw [processLiveness_other s lm n (Or.inr (Or.inl hst)), hst]
  · rw [processLiveness_blink s lm n hst]
    split_ifs <;> simp [hst, stateIdx]
  · rw [processLiveness_mouth s lm n hst]
    split_ifs <;> simp [hst, stateIdx]
  · rw [processLiveness_shake s lm n hst]
    simp only []
    split_ifs <;> simp [hst, stateIdx]
  · rw [processLiveness_other s lm n (Or.inr (Or.inr hst)), hst]

/-- On a BLINK frame, processLiveness leaves the mouth counter and the
head-shake timestamps alone. -/
theorem processLiveness_blink_static (s : LivenessState) (lm : Landmarks) (n : ℕ)
    (hs : s.state = .BLINK) :
    (processLiveness s lm n).mouthOpenCounter = s.mouthOpenCounter ∧
    (processLiveness s lm n).headShakeLeft = s.headShakeLeft ∧
    (processLiveness s lm n).headShakeRight = s.headShakeRight := by
  rw [processLiveness_blink s lm n hs]
  split_ifs <;> simp

/-- On a MOUTH frame, processLiveness leaves the blink counter and the
head-shake timestamps alone. -/
theorem processLiveness_mouth_static (s : LivenessState) (lm : Landmarks) (n : ℕ)
    (hs : s.state = .MOUTH) :
    (processLiveness s lm n).blinkCounter = s.blinkCounter ∧
    (processLiveness s lm n).headShakeLeft = s.headShakeLeft ∧
    (processLiveness s lm n).headShakeRight = s.headShakeRight := by
  rw [processLiveness_mouth s lm n hs]
  split_ifs <;> simp

/-- On a SHAKE frame, processLiveness leaves both challenge counters
alone. -/
theorem processLiveness_shake_static (s : LivenessState) (lm : Landmarks) (n : ℕ)
    (hs : s.state = .SHAKE) :
    (processLiveness s lm n).blinkCounter = s.blinkCounter ∧
    (processLiveness s lm n).mouthOpenCounter = s.mouthOpenCounter := by
  rw [processLiveness_shake s lm n hs]
  simp only []
  split_ifs <;> simp

/-- C6: for every reachable session state and every input frame, the
session state machine only moves forward along the chain
BLINK, MOUTH, SHAKE, COMPLETED and never regresses; once in COMPLETED no
frame changes anything, and the external Restart command resets the
session state to BLINK. -/
theorem session_states_forward_only (s : LivenessState) (inp : FrameInput) (n : ℕ) :
    stateIdx s.state ≤ stateIdx (detectionTick s inp n).state ∧
    (s.state = .COMPLETED → detectionTick s inp n = s) ∧
    (restart s).state = .BLINK := by
  rcases inp with _ | ⟨score, lm, fr⟩
  · exact ⟨le_refl _, fun _ => rfl, rfl⟩
  · refine ⟨?_, ?_, rfl⟩
    · simp only [detectionTick]
      split_ifs with hgate
      · have h1 := (captureBestFace_static s score lm fr).1
        calc stateIdx s.state
            = stateIdx (captureBestFace s score lm fr).state := by rw [h1]
          _ ≤ _ := processLiveness_stateIdx _ _ _
      · exact processLiveness_stateIdx _ _ _
    · intro hc
      simp only [detectionTick]
      rw [if_neg (by simp [hc])]
      exact processLiveness_other s lm n (Or.inr (Or.inr hc))

/-- C6 witness: from a concrete COMPLETED state, a face frame changes
nothing. -/
theorem session_states_forward_only_witness :
    detectionTick (baseState .COMPLETED) (.face 1 frameMouthOpen 3) 9 =
      baseState .COMPLETED :=
  (session_states_forward_only (baseState .COMPLETED) (.face 1 frameMouthOpen 3) 9).2.1 rfl

/-- C7: a tick in which no face is detected changes nothing at all: the
session state, both challenge counters, the head-turn timestamps and the
best-capture record are left exactly as they were. -/
theorem no_face_tick_is_noop (s : LivenessState) (n : ℕ) :
    detectionTick s .noFace n = s := rfl

/-- C8: on every tick the best-capture score either stays exactly the
same or strictly increases (and a strict increase always stores a fresh
image with it); it returns to its initial sentinel 0 with the image
cleared via restart. -/
theorem best_score_monotone_and_reset (s : LivenessState) (inp : FrameInput) (n : ℕ) :
    ((detectionTick s inp n).bestFaceScore = s.bestFaceScore ∨
      (s.bestFaceScore < (detectionTick s inp n).bestFaceScore ∧
        (detectionTick s inp n).bestFaceBlob ≠ none)) ∧
    (restart s).bestFaceScore = 0 ∧ (restart s).bestFaceBlob = none := by
  refine ⟨?_, rfl, rfl⟩
  rcases inp with _ | ⟨score, lm, fr⟩
  · left; rfl
  · simp only [detectionTick]
    split_ifs with hgate
    · rw [(processLiveness_bestFace _ lm n).2, (processLiveness_bestFace _ lm n).1]
      simp only [captureBestFace]
      split_ifs with hcap
      · right
        exact ⟨hcap.2, by simp⟩
      · left; rfl
    · rw [(processLiveness_bestFace _ lm n).2]
      left; rfl

/-- C9: restart is idempotent from COMPLETED: one restart and two
restarts in a row each yield the identical clean state, with session
state BLINK, both counters zero, both head-turn timestamps zero, and the
best-capture record cleared to its initial value. -/
theorem restart_idempotent_from_completed (s : LivenessState) (_hs : s.state = .COMPLETED) :
    restart s = restart (restart s) ∧
    restart s =
      { state := .BLINK
        blinkCounter := 0
        mouthOpenCounter := 0
        headShakeLeft := 0
        headShakeRight := 0
        headShakeLastX := 0
        bestFaceBlob := none
        bestFaceScore := 0 } :=
  ⟨rfl, rfl⟩

/-- C9 witness: restart applied to a concrete COMPLETED state. -/
theorem restart_idempotent_from_completed_witness :
    restart (baseState .COMPLETED) = restart (restart (baseState .COMPLETED)) :=
  (restart_idempotent_from_completed (baseState .COMPLETED) rfl).1

/-- C10: on every processed frame, at most the challenge tracker of the
current session state can change: in BLINK the mouth counter and both
head-turn timestamps are untouched, in MOUTH the blink counter and the
timestamps are untouched, in SHAKE both counters are untouched, and in
the bootstrap or terminal states every tracker is untouched; in
particular a frame that satisfies a challenge never also advances the
next detector on that same frame. -/
theorem single_challenge_mutation_per_frame (s : LivenessState) (inp : FrameInput) (n : ℕ) :
    (s.state = .BLINK →
      (detectionTick s inp n).mouthOpenCounter = s.mouthOpenCounter ∧
      (detectionTick s inp n).headShakeLeft = s.headShakeLeft ∧
      (detectionTick s inp n).headShakeRight = s.headShakeRight) ∧
    (s.state = .MOUTH →
      (detectionTick s inp n).blinkCounter = s.blinkCounter ∧
      (detectionTick s inp n).headShakeLeft = s.headShakeLeft ∧
      (detectionTick s inp n).headShakeRight = s.headShakeRight) ∧
    (s.state = .SHAKE →
      (detectionTick s inp n).blinkCounter = s.blinkCounter ∧
      (detectionTick s inp n).mouthOpenCounter = s.mouthOpenCounter) ∧
    ((s.state = .LOADING ∨ s.state = .READY ∨ s.state = .COMPLETED) →
      (detectionTick s inp n).blinkCounter = s.blinkCounter ∧
      (detectionTick s inp n).mouthOpenCounter = s.mouthOpenCounter ∧
      (detectionTick s inp n).headShakeLeft = s.headShakeLeft ∧
      (detectionTick s inp n).headShakeRight = s.headShakeRight) := by
  rcases inp with _ | ⟨score, lm, fr⟩
  · exact ⟨fun _ => ⟨rfl, rfl, rfl⟩, fun _ => ⟨rfl, rfl, rfl⟩, fun _ => ⟨rfl, rfl⟩,
      fun _ => ⟨rfl, rfl, rfl, rfl⟩⟩
  · simp only [detectionTick]
    split_ifs with hgate
    · obtain ⟨hst, hbc, hmc, hhl, hhr⟩ := captureBestFace_static s score lm fr
      refine ⟨fun h => ?_, fun h => ?_, fun h => ?_, fun h => ?_⟩
      · obtain ⟨a, b, c⟩ := processLiveness_blink_static _ lm n (hst.trans h)
        exact ⟨a.trans hmc, b.trans hhl, c.trans hhr⟩
      · obtain ⟨a, b, c⟩ := processLiveness_mouth_static _ lm n (hst.trans h)
        exact ⟨a.trans hbc, b.trans hhl, c.trans hhr⟩
      · obtain ⟨a, b⟩ := processLiveness_shake_static _ lm n (hst.trans h)
        exact ⟨a.trans hbc, b.trans hmc⟩
      · rw [processLiveness_other _ lm n (by
          rcases h with h | h | h
          · exact Or.inl (hst.trans h)
          · exact Or.inr (Or.inl (hst.trans h))
          · exact Or.inr (Or.inr (hst.trans h)))]
        exact ⟨hbc, hmc, hhl, hhr⟩
    · refine ⟨fun h => ?_, fun h => ?_, fun h => ?_, fun h => ?_⟩
      · exact processLiveness_blink_static s lm n h
      · exact processLiveness_mouth_static s lm n h
      · exact processLiveness_shake_static s lm n h
      · rw [processLiveness_other s lm n h]
        exact ⟨rfl, rfl, rfl, rfl⟩

/-- C10 witness: in a concrete SHAKE state, a face frame leaves both
challenge counters untouched. -/
theorem single_challenge_mutation_per_frame_witness :
    (detectionTick (baseState .SHAKE) (.face 1 frameNoseRight 4) 50).blinkCounter = 0 ∧
    (detectionTick (baseState .SHAKE) (.face 1 frameNoseRight 4) 50).mouthOpenCounter = 0 :=
  (single_challenge_mutation_per_frame (baseState .SHAKE) (.face 1 frameNoseRight 4) 50).2.2.1 rfl

/-- C4: in session state BLINK with a fresh counter, a frame whose
average EAR is a finite value below 0.30 followed by a frame whose
average EAR is a finite value at or above 0.30 produces exactly one
blink-satisfied edge: the first frame only raises the closed counter to
one and stays in BLINK, the second frame transitions BLINK to MOUTH and
resets the blink counter to zero. -/
theorem blink_single_closed_frame_cycle (s : LivenessState) (f1 f2 : Landmarks)
    (n1 n2 : ℕ) (e1 e2 : ℚ) (hs : s.state = .BLINK) (hc : s.blinkCounter = 0)
    (h1 : avgEAR f1 = .fin e1) (he1 : e1 < 3 / 10)
    (h2 : avgEAR f2 = .fin e2) (he2 : 3 / 10 ≤ e2) :
    (processLiveness s f1 n1).state = .BLINK ∧
    (processLiveness s f1 n1).blinkCounter = 1 ∧
    (processLiveness (processLiveness s f1 n1) f2 n2).state = .MOUTH ∧
    (processLiveness (processLiveness s f1 n1) f2 n2).blinkCounter = 0 := by
  have hlt1 : jsLt (avgEAR f1) BLINK_THRESHOLD = true := by
    rw [h1]
    simp only [jsLt, BLINK_THRESHOLD, decide_eq_true_eq]
    exact he1
  have hlt2 : jsLt (avgEAR f2) BLINK_THRESHOLD = false := by
    rw [h2]
    simp only [jsLt, BLINK_THRESHOLD, decide_eq_false_iff_not]
    exact not_lt.mpr he2
  have hstep1 : processLiveness s f1 n1 = { s with blinkCounter := s.blinkCounter + 1 } := by
    rw [processLiveness_blink s f1 n1 hs, if_pos hlt1]
  have hstep2 : processLiveness (processLiveness s f1 n1) f2 n2 =
      { s with state := .MOUTH, blinkCounter := 0 } := by
    rw [hstep1, processLiveness_blink _ f2 n2 (by simp [hs]), if_neg (by simp [hlt2]),
      if_pos (by simp)]
  refine ⟨by rw [hstep1]; simp [hs], by rw [hstep1]; simp [hc], by rw [hstep2],
    by rw [hstep2]⟩

/-- C4 witness: a concrete closed-eyes frame then a concrete open-eyes
frame moves a fresh BLINK session to MOUTH. -/
theorem blink_single_closed_frame_cycle_witness :
    (processLiveness (processLiveness (baseState .BLINK) frameEyesClosed 0)
        frameNeutral 1).state = SessionState.MOUTH :=
  (blink_single_closed_frame_cycle (baseState .BLINK) frameEyesClosed frameNeutral 0 1 0 1
    rfl rfl
    (by rw [frameEyesClosed, avgEAR_mkFrame]; norm_num) (by norm_num)
    (by rw [frameNeutral, avgEAR_mkFrame]; norm_num) (by norm_num)).2.2.1

/-- C1 counterexample: the claim requires at least four consecutive
open-mouth frames before an edge can be emitted, but the code emits the
mouth-satisfied edge after only three: from a fresh MOUTH session, three
frames whose MAR is above the threshold followed by one frame at or
below it transition the session to SHAKE. -/
theorem mouth_three_open_frames_emit_edge :
    jsGt (getMAR frameMouthOpen.mouth) MOUTH_OPEN_THRESHOLD = true ∧
    jsGt (getMAR frameNeutral.mouth) MOUTH_OPEN_THRESHOLD = false ∧
    (runFrames (baseState .MOUTH)
        [(frameMouthOpen, 0), (frameMouthOpen, 1), (frameMouthOpen, 2),
          (frameNeutral, 3)]).state = SessionState.SHAKE := by
  refine ⟨marOpen_frameMouthOpen, marClosed_frameNeutral, ?_⟩
  have h3 : runFrames (baseState .MOUTH)
      [(frameMouthOpen, 0), (frameMouthOpen, 1), (frameMouthOpen, 2)] =
      { baseState .MOUTH with mouthOpenCounter := 3 } := by
    rw [runFrames_mouth_open _ _ rfl ?_]
    · rfl
    · intro p hp
      simp only [List.mem_cons, List.not_mem_nil, or_false] at hp
      rcases hp with hp | hp | hp <;> rw [hp] <;> exact marOpen_frameMouthOpen
  have hsplit : runFrames (baseState .MOUTH)
      [(frameMouthOpen, 0), (frameMouthOpen, 1), (frameMouthOpen, 2), (frameNeutral, 3)] =
      processLiveness (runFrames (baseState .MOUTH)
        [(frameMouthOpen, 0), (frameMouthOpen, 1), (frameMouthOpen, 2)]) frameNeutral 3 := rfl
  rw [hsplit, h3, processLiveness_mouth _ _ _ rfl, if_neg (by simp [marClosed_frameNeutral]),
    if_pos (by norm_num)]

/-- C1 (amended): in session state MOUTH with a fresh counter, a maximal
run of consecutive frames with MAR above 0.30 followed by a frame with
MAR at or below 0.30 emits no edge while the run lasts, and at the drop
frame emits the mouth-satisfied edge (transition to SHAKE) exactly when
the run held for three or more frames (the code tests counter greater
than two), resetting the counter to zero either way.  The frozen claim
said four frames; three suffice. -/
theorem mouth_edge_iff_three_consecutive (opens : List (Landmarks × ℕ)) (f : Landmarks)
    (n : ℕ) (s : LivenessState) (hs : s.state = .MOUTH) (hc : s.mouthOpenCounter = 0)
    (hopen : ∀ p ∈ opens, jsGt (getMAR p.1.mouth) MOUTH_OPEN_THRESHOLD = true)
    (hclose : jsGt (getMAR f.mouth) MOUTH_OPEN_THRESHOLD = false) :
    (runFrames s opens).state = .MOUTH ∧
    (runFrames s opens).mouthOpenCounter = opens.length ∧
    (processLiveness (runFrames s opens) f n).state =
      (if 3 ≤ opens.length then .SHAKE else .MOUTH) ∧
    (processLiveness (runFrames s opens) f n).mouthOpenCounter = 0 := by
  have hrun := runFrames_mouth_open opens s hs hopen
  have hstep := processLiveness_mouth (runFrames s opens) f n (by rw [hrun]; simp [hs])
  rw [if_neg (by simp [hclose])] at hstep
  refine ⟨by rw [hrun]; exact hs, by rw [hrun]; simp [hc], ?_, ?_⟩
  · rw [hstep, hrun]
    simp only [hc, Nat.zero_add]
    split_ifs with h1 h2 h3 <;> simp_all <;> omega
  · rw [hstep]
    split_ifs <;> simp

/-- C1 witness: three concrete open-mouth frames then a closed one fire
the edge at the drop frame. -/
theorem mouth_edge_iff_three_consecutive_witness :
    (processLiveness (runFrames (baseState .MOUTH)
        [(frameMouthOpen, 0), (frameMouthOpen, 1), (frameMouthOpen, 2)])
      frameNeutral 3).state = SessionState.SHAKE := by
  have h := (mouth_edge_iff_three_consecutive
      [(frameMouthOpen, 0), (frameMouthOpen, 1), (frameMouthOpen, 2)] frameNeutral 3
      (baseState .MOUTH) rfl rfl ?_ marClosed_frameNeutral).2.2.1
  · rw [h]
    norm_num
  · intro p hp
    simp only [List.mem_cons, List.not_mem_nil, or_false] at hp
    rcases hp with hp | hp | hp <;> rw [hp] <;> exact marOpen_frameMouthOpen

/-- A left-turn frame in SHAKE records the left timestamp as now. -/
theorem shake_left_recorded (s : LivenessState) (lm : Landmarks) (n : ℕ)
    (hs : s.state = .SHAKE) (hL : jsLt (noseRelX lm) (.fin (2 / 5)) = true) :
    (processLiveness s lm n).headShakeLeft = n := by
  rw [processLiveness_shake s lm n hs]
  simp only [hL]
  split_ifs <;> simp_all

/-- A frame that does not test left in SHAKE leaves the left timestamp
alone. -/
theorem shake_left_unchanged (s : LivenessState) (lm : Landmarks) (n : ℕ)
    (hs : s.state = .SHAKE) (hL : jsLt (noseRelX lm) (.fin (2 / 5)) = false) :
    (processLiveness s lm n).headShakeLeft = s.headShakeLeft := by
  rw [processLiveness_shake s lm n hs]
  simp only [hL]
  split_ifs <;> simp_all

/-- A right-turn frame in SHAKE records the right timestamp as now. -/
theorem shake_right_recorded (s : LivenessState) (lm : Landmarks) (n : ℕ)
    (hs : s.state = .SHAKE) (hR : jsGt (noseRelX lm) (.fin (3 / 5)) = true) :
    (processLiveness s lm n).headShakeRight = n := by
  rw [processLiveness_shake s lm n hs]
  simp only [hR]
  split_ifs <;> simp_all

/-- A frame that does not test right in SHAKE leaves the right timestamp
alone. -/
theorem shake_right_unchanged (s : LivenessState) (lm : Landmarks) (n : ℕ)
    (hs : s.state = .SHAKE) (hR : jsGt (noseRelX lm) (.fin (3 / 5)) = false) :
    (processLiveness s lm n).headShakeRight = s.headShakeRight := by
  rw [processLiveness_shake s lm n hs]
  simp only [hR]
  split_ifs <;> simp_all

/-- The shake edge fires on a SHAKE frame exactly when, after this
frame has recorded its updates, both timestamps are nonzero and they lie
within 2000 milliseconds of each other. -/
theorem shake_fire_iff (s : LivenessState) (lm : Landmarks) (n : ℕ)
    (hs : s.state = .SHAKE) :
    ((processLiveness s lm n).state = .COMPLETED ↔
      ((processLiveness s lm n).headShakeLeft ≠ 0 ∧
        (processLiveness s lm n).headShakeRight ≠ 0 ∧
        (((processLiveness s lm n).headShakeLeft : ℤ) -
          ((processLiveness s lm n).headShakeRight : ℤ)).natAbs < 2000)) := by
  rw [processLiveness_shake s lm n hs]
  simp only []
  split_ifs <;> simp_all [hs]

/-- On a SHAKE frame the resulting session state is either COMPLETED or
still SHAKE. -/
theorem shake_state_cases (s : LivenessState) (lm : Landmarks) (n : ℕ)
    (hs : s.state = .SHAKE) :
    (processLiveness s lm n).state = .COMPLETED ∨
    (processLiveness s lm n).state = .SHAKE := by
  rw [processLiveness_shake s lm n hs]
  simp only []
  split_ifs <;> simp [hs]

/-- C5: in session state SHAKE, a frame whose head-yaw proxy tests below
0.4 records the left timestamp as now and one testing above 0.6 records
the right timestamp as now; otherwise each timestamp is left exactly as
it was (never reset after a failed pairing, only overwritten); the
shake-satisfied edge (transition to COMPLETED) fires exactly when both
timestamps are nonzero and less than 2000 milliseconds apart; in
particular a neutral frame with timestamps t and t + 1999 fires, while
one with t and t + 2001 does not. -/
theorem shake_detector_per_frame (s : LivenessState) (lm : Landmarks) (n : ℕ)
    (hs : s.state = .SHAKE) :
    (jsLt (noseRelX lm) (.fin (2 / 5)) = true →
      (processLiveness s lm n).headShakeLeft = n) ∧
    (jsLt (noseRelX lm) (.fin (2 / 5)) = false →
      (processLiveness s lm n).headShakeLeft = s.headShakeLeft) ∧
    (jsGt (noseRelX lm) (.fin (3 / 5)) = true →
      (processLiveness s lm n).headShakeRight = n) ∧
    (jsGt (noseRelX lm) (.fin (3 / 5)) = false →
      (processLiveness s lm n).headShakeRight = s.headShakeRight) ∧
    ((processLiveness s lm n).state = .COMPLETED ↔
      ((processLiveness s lm n).headShakeLeft ≠ 0 ∧
        (processLiveness s lm n).headShakeRight ≠ 0 ∧
        (((processLiveness s lm n).headShakeLeft : ℤ) -
          ((processLiveness s lm n).headShakeRight : ℤ)).natAbs < 2000)) ∧
    (s.headShakeLeft ≠ 0 → s.headShakeRight = s.headShakeLeft + 1999 →
      jsLt (noseRelX lm) (.fin (2 / 5)) = false →
      jsGt (noseRelX lm) (.fin (3 / 5)) = false →
      (processLiveness s lm n).state = .COMPLETED) ∧
    (s.headShakeRight = s.headShakeLeft + 2001 →
      jsLt (noseRelX lm) (.fin (2 / 5)) = false →
      jsGt (noseRelX lm) (.fin (3 / 5)) = false →
      (processLiveness s lm n).state = .SHAKE) := by
  refine ⟨shake_left_recorded s lm n hs, shake_left_unchanged s lm n hs,
    shake_right_recorded s lm n hs, shake_right_unchanged s lm n hs,
    shake_fire_iff s lm n hs, ?_, ?_⟩
  · intro h0 h1999 hL hR
    rw [shake_fire_iff s lm n hs, shake_left_unchanged s lm n hs hL,
      shake_right_unchanged s lm n hs hR]
    refine ⟨h0, by omega, by rw [h1999]; omega⟩
  · intro h2001 hL hR
    rcases shake_state_cases s lm n hs with hcomp | hshake
    · exfalso
      rw [shake_fire_iff s lm n hs, shake_left_unchanged s lm n hs hL,
        shake_right_unchanged s lm n hs hR, h2001] at hcomp
      omega
    · exact hshake

/-- C5 witness: with the left timestamp at 5, a concrete right-turn
frame at time 1004 records the right timestamp and fires the edge. -/
theorem shake_detector_per_frame_witness :
    (processLiveness { baseState .SHAKE with headShakeLeft := 5 } frameNoseRight
        1004).headShakeRight = 1004 ∧
    (processLiveness { baseState .SHAKE with headShakeLeft := 5 } frameNoseRight
        1004).state = SessionState.COMPLETED := by
  have hL : jsLt (noseRelX frameNoseRight) (.fin (2 / 5)) = false := by
    rw [frameNoseRight, noseRelX_mkFrame]
    norm_num [jsLt]
  have hR : jsGt (noseRelX frameNoseRight) (.fin (3 / 5)) = true := by
    rw [frameNoseRight, noseRelX_mkFrame]
    norm_num [jsGt, jsLt]
  have h := shake_detector_per_frame { baseState .SHAKE with headShakeLeft := 5 }
    frameNoseRight 1004 rfl
  have hright := h.2.2.1 hR
  have hleft := h.2.1 hL
  refine ⟨hright, h.2.2.2.2.1.mpr ⟨?_, ?_, ?_⟩⟩
  · rw [hleft]
    norm_num [baseState]
  · rw [hright]
    norm_num
  · rw [hleft, hright]
    simp only [baseState]
    omega

/-- C2 counterexample: getEAR has no epsilon guard.  A degenerate eye
contour whose corner distance is one millionth of a unit yields the
finite ratio zero, which classifies as closed and increments the blink
counter, contradicting the claim that every contour with corner distance
below a small epsilon is treated as open; and the fully coincident
contour makes getEAR return NaN, a non-finite value, rather than a
guarded sentinel. -/
theorem tiny_eye_contour_increments_blink :
    dist (degEyeTiny 0) (degEyeTiny 3) = 1 / 1000000 ∧
    getEAR degEyeTiny = .fin 0 ∧
    (processLiveness (baseState .BLINK) degFrameTiny 0).blinkCounter = 1 ∧
    getEAR degEyeZero = .nan := by
  refine ⟨dist_degEyeTiny_corners, getEAR_degEyeTiny, ?_, getEAR_degEyeZero⟩
  have hlt : jsLt (avgEAR degFrameTiny) BLINK_THRESHOLD = true := by
    rw [avgEAR_degFrameTiny]
    norm_num [jsLt, BLINK_THRESHOLD]
  rw [processLiveness_blink _ _ _ rfl, if_pos hlt]
  rfl

/-- C2 (amended): for an eye contour whose corner points coincide
exactly, the unguarded JavaScript division yields Infinity or NaN, no
exception is raised, and the frame classifies as eyes open: in BLINK the
blink counter is not incremented (it is reset to zero by the open
branch), the session moves to MOUTH exactly when the counter was already
positive, and stays in BLINK exactly when it was zero.  For corner
distances that are tiny but nonzero the ratio is finite and the claim
fails, as the counterexample shows. -/
theorem coincident_corner_eye_counts_open (s : LivenessState) (lm : Landmarks) (n : ℕ)
    (hs : s.state = .BLINK) (hdeg : lm.leftEye 0 = lm.leftEye 3) :
    (processLiveness s lm n).blinkCounter = 0 ∧
    ((processLiveness s lm n).state = .MOUTH ↔ 1 ≤ s.blinkCounter) ∧
    ((processLiveness s lm n).state = .BLINK ↔ s.blinkCounter = 0) := by
  have hlt := avgEAR_left_corners_coincident lm hdeg
  rw [processLiveness_blink s lm n hs, if_neg (by simp [hlt])]
  split_ifs with h1
  · refine ⟨by simp, by simp [h1], by simp; omega⟩
  · refine ⟨by simp, by simp [hs]; omega, by simp [hs]; omega⟩

/-- C2 witness: a concrete fully collapsed left eye in a fresh BLINK
state leaves the blink counter at zero. -/
theorem coincident_corner_eye_counts_open_witness :
    (processLiveness (baseState .BLINK) degFrameZero 0).blinkCounter = 0 :=
  (coincident_corner_eye_counts_open (baseState .BLINK) degFrameZero 0 rfl rfl).1

/-- C3 counterexample: the claim includes SHAKE among the mid-challenge
states where the best-capture tracker may replace the best frame, but
the code skips captureBestFace whenever the session state is SHAKE: a
frontal frame with a strictly better score arriving in SHAKE leaves the
best-capture record, and with a centered nose the entire state,
unchanged. -/
theorem shake_state_frame_never_captured :
    (jsGt (noseRelX frameNeutral) (.fin (9 / 20)) &&
      jsLt (noseRelX frameNeutral) (.fin (11 / 20))) = true ∧
    (baseState .SHAKE).bestFaceScore < 9 / 10 ∧
    detectionTick (baseState .SHAKE) (.face (9 / 10) frameNeutral 7) 100 =
      baseState .SHAKE := by
  refine ⟨?_, by norm_num [baseState], ?_⟩
  · rw [frameNeutral, noseRelX_mkFrame]
    norm_num [jsGt, jsLt]
  · have hL : jsLt (noseRelX frameNeutral) (.fin (2 / 5)) = false := by
      rw [frameNeutral, noseRelX_mkFrame]
      norm_num [jsLt]
    have hR : jsGt (noseRelX frameNeutral) (.fin (3 / 5)) = false := by
      rw [frameNeutral, noseRelX_mkFrame]
      norm_num [jsGt, jsLt]
    simp only [detectionTick]
    rw [if_neg (by simp [baseState])]
    rw [processLiveness_shake _ _ _ rfl]
    simp [hL, hR, baseState]

/-- C3 (amended): on a face frame, the best-capture tracker runs only
while the session state is BLINK or MOUTH (the code also skips SHAKE,
and the frontal band is strict): there it replaces the held image and
score together exactly when the head-yaw proxy lies strictly between
0.45 and 0.55 and the detection score strictly exceeds the held score,
and otherwise leaves both untouched; in SHAKE and COMPLETED the
best-capture record is never touched by a frame. -/
theorem best_capture_update_rule (s : LivenessState) (score : ℚ) (lm : Landmarks)
    (fr : ℕ) (n : ℕ) :
    ((s.state = .BLINK ∨ s.state = .MOUTH) →
      (((jsGt (noseRelX lm) (.fin (9 / 20)) &&
            jsLt (noseRelX lm) (.fin (11 / 20))) = true ∧ s.bestFaceScore < score →
        (detectionTick s (.face score lm fr) n).bestFaceBlob = some fr ∧
        (detectionTick s (.face score lm fr) n).bestFaceScore = score) ∧
      (¬((jsGt (noseRelX lm) (.fin (9 / 20)) &&
            jsLt (noseRelX lm) (.fin (11 / 20))) = true ∧ s.bestFaceScore < score) →
        (detectionTick s (.face score lm fr) n).bestFaceBlob = s.bestFaceBlob ∧
        (detectionTick s (.face score lm fr) n).bestFaceScore = s.bestFaceScore))) ∧
    ((s.state = .SHAKE ∨ s.state = .COMPLETED) →
      (detectionTick s (.face score lm fr) n).bestFaceBlob = s.bestFaceBlob ∧
      (detectionTick s (.face score lm fr) n).bestFaceScore = s.bestFaceScore) := by
  constructor
  · intro hbm
    have hgate : s.state ≠ .SHAKE ∧ s.state ≠ .COMPLETED ∧ s.state ≠ .LOADING := by
      rcases hbm with h | h <;> simp [h]
    constructor
    · rintro ⟨hf, hsc⟩
      simp only [detectionTick]
      rw [if_pos hgate]
      rw [(processLiveness_bestFace _ lm n).1, (processLiveness_bestFace _ lm n).2]
      simp only [captureBestFace]
      rw [if_pos ⟨hf, hsc⟩]
      exact ⟨rfl, rfl⟩
    · intro hnf
      simp only [detectionTick]
      rw [if_pos hgate]
      rw [(processLiveness_bestFace _ lm n).1, (processLiveness_bestFace _ lm n).2]
      simp only [captureBestFace]
      rw [if_neg hnf]
      exact ⟨rfl, rfl⟩
  · intro hsc
    have hgate : ¬(s.state ≠ .SHAKE ∧ s.state ≠ .COMPLETED ∧ s.state ≠ .LOADING) := by
      rcases hsc with h | h <;> simp [h]
    simp only [detectionTick]
    rw [if_neg hgate]
    exact ⟨(processLiveness_bestFace s lm n).1, (processLiveness_bestFace s lm n).2⟩

/-- C3 witness: in a fresh BLINK state a frontal frame with a better
score is stored together with its score. -/
theorem best_capture_update_rule_witness :
    (detectionTick (baseState .BLINK) (.face (1 / 2) frameNeutral 5) 0).bestFaceBlob =
      some 5 ∧
    (detectionTick (baseState .BLINK) (.face (1 / 2) frameNeutral 5) 0).bestFaceScore =
      1 / 2 :=
  ((best_capture_update_rule (baseState .BLINK) (1 / 2) frameNeutral 5 0).1 (Or.inl rfl)).1
    ⟨by rw [frameNeutral, noseRelX_mkFrame]; norm_num [jsGt, jsLt],
      by norm_num [baseState]⟩

end LivenessDemo
